import Mathlib

/-!
Verification model of the quiz-solving core (`quiz_solver.py`) of the
llm-analysis-quiz-solver repository.

Texts (page text, HTML, URLs, LLM responses, error messages) are modelled as
`List Char`.  External collaborators declared out of scope by the design
(browser rendering, LLM inference, file/API fetching and parsing, HTTP
transport) are modelled as an explicit environment of functions indexed by the
visit number, so a single pure run of the orchestrator corresponds to one
session of the Python program against a fixed behaviour of its collaborators.
-/

namespace QS

/-- Error messages (`str(e)` of a Python exception). -/
abbrev Err := List Char

/-- Python whitespace class used by `str.strip()` and by `\s` in `re`. -/
def pyIsSpace (c : Char) : Bool :=
  c = ' ' || c = '\t' || c = '\n' || c = '\r' || c = '\x0b' || c = '\x0c'

/-- Python `str.strip()`: drop whitespace from both ends. -/
def pyStrip (l : List Char) : List Char :=
  ((l.dropWhile pyIsSpace).reverse.dropWhile pyIsSpace).reverse

/-- Boolean prefix test on character lists. -/
def isPrefTok : List Char → List Char → Bool
  | [], _ => true
  | _ :: _, [] => false
  | a :: s, b :: t => a = b && isPrefTok s t

/-- Boolean substring test: Python's `pat in s`. -/
def hasInfixTok (pat : List Char) : List Char → Bool
  | [] => isPrefTok pat []
  | c :: t => isPrefTok pat (c :: t) || hasInfixTok pat t

/-- Characters allowed inside a URL token by the source pattern
`https?://[^\s<>"'\)]+` (everything except whitespace, `<`, `>`, `"`, `'`, `)`). -/
def urlChar (c : Char) : Bool :=
  !(pyIsSpace c || c = '<' || c = '>' || c = '"' || c = Char.ofNat 39 || c = ')')

/-- Match the scheme part `https?://` of the source URL patterns at the head of
the input; returns the consumed scheme and the rest.  `https` is preferred, as
the greedy `s?` of the regular expression does. -/
def matchScheme (l : List Char) : Option (List Char × List Char) :=
  if isPrefTok "https://".data l then some ("https://".data, l.drop 8)
  else if isPrefTok "http://".data l then some ("http://".data, l.drop 7)
  else none

/-- `QuizSolver._extract_submit_url`: first match of
`https?://[^\s<>"'\)]+/submit[^\s<>"'\)]*` in the HTML.  At a position where
the scheme matches, the greedy character class consumes the maximal run of URL
characters; the match succeeds exactly when `/submit` occurs in that run after
at least one character, and then the whole scheme-plus-run is the token. -/
def extract_submit_url : List Char → Option (List Char)
  | [] => none
  | c :: t =>
    match matchScheme (c :: t) with
    | some (scheme, r) =>
      let run := r.takeWhile urlChar
      if hasInfixTok "/submit".data (run.drop 1) then some (scheme ++ run)
      else extract_submit_url t
    | none => extract_submit_url t

/-- `re.findall` of the data-URL pattern `https?://[^\s<>"'\)]+` over the page
text, continuing after the end of each match.  The fuel argument (instantiated
with the text length in `find_urls`) only bounds the recursion; every step
consumes at least one character, so the fuel never runs out. -/
def findUrlsAux : Nat → List Char → List (List Char)
  | 0, _ => []
  | Nat.succ f, l =>
    match matchScheme l with
    | some (scheme, r) =>
      let run := r.takeWhile urlChar
      if run.isEmpty then
        match l with
        | [] => []
        | _ :: t => findUrlsAux f t
      else (scheme ++ run) :: findUrlsAux f (r.drop run.length)
    | none =>
      match l with
      | [] => []
      | _ :: t => findUrlsAux f t

/-- All data URLs found in the page text, in order of appearance. -/
def find_urls (l : List Char) : List (List Char) :=
  findUrlsAux l.length l

/-- The closed set of question kinds (`info['type']` in the source). -/
inductive QKind
  | file_download
  | api_fetch
  | data_analysis
  | visualization
  | pdf_analysis
  | general
deriving DecidableEq, Repr

/-- Keyword test of the first classification rule: "download" or "file". -/
def kwFileDownload (t : List Char) : Bool :=
  hasInfixTok "download".data t || hasInfixTok "file".data t

/-- Keyword test of the second classification rule: "api" or "endpoint". -/
def kwApiFetch (t : List Char) : Bool :=
  hasInfixTok "api".data t || hasInfixTok "endpoint".data t

/-- Keyword test of the third classification rule: "sum", "calculate" or "table". -/
def kwDataAnalysis (t : List Char) : Bool :=
  hasInfixTok "sum".data t || hasInfixTok "calculate".data t ||
    hasInfixTok "table".data t

/-- Keyword test of the fourth classification rule: "visualize", "chart" or "plot". -/
def kwVisualization (t : List Char) : Bool :=
  hasInfixTok "visualize".data t || hasInfixTok "chart".data t ||
    hasInfixTok "plot".data t

/-- Keyword test of the fifth classification rule: "pdf". -/
def kwPdf (t : List Char) : Bool :=
  hasInfixTok "pdf".data t

/-- Python `str.lower()` restricted to the ASCII behaviour of `Char.toLower`. -/
def lowerStr (l : List Char) : List Char :=
  l.map Char.toLower

/-- The question-type decision chain of `QuizSolver._extract_question_info`
(lines 169-182): first-match priority over the lower-cased page text. -/
def classifyKind (text : List Char) : QKind :=
  let t := lowerStr text
  if kwFileDownload t then QKind.file_download
  else if kwApiFetch t then QKind.api_fetch
  else if kwDataAnalysis t then QKind.data_analysis
  else if kwVisualization t then QKind.visualization
  else if kwPdf t then QKind.pdf_analysis
  else QKind.general

/-- A typed answer: Python `int`, Python `float` (modelled as the exact rational
value of the decimal token), or a string. -/
inductive Answer
  | int (n : Int)
  | num (q : ℚ)
  | str (s : List Char)
deriving DecidableEq, Repr

/-- Numeric value of a digit string (`int` of an all-digit token). -/
def digitsVal (l : List Char) : Nat :=
  l.foldl (fun a c => a * 10 + (c.toNat - '0'.toNat)) 0

/-- Python `int(tok)` on a token shaped `-?digits`. -/
def parseIntTok (l : List Char) : Int :=
  match l with
  | '-' :: t => - (digitsVal t : Int)
  | t => (digitsVal t : Int)

/-- Value of an unsigned decimal token `digits(.digits?)?`. -/
def parseFloatCore (l : List Char) : ℚ :=
  let ip := l.takeWhile Char.isDigit
  let rest := l.dropWhile Char.isDigit
  let fp := match rest with
    | '.' :: t => t
    | _ => []
  (digitsVal ip : ℚ) + (digitsVal fp : ℚ) / (10 : ℚ) ^ fp.length

/-- Python `float(tok)` on a token of the number-pattern shape, as an exact
rational. -/
def parseFloatTok (l : List Char) : ℚ :=
  match l with
  | '-' :: t => - parseFloatCore t
  | t => parseFloatCore t

/-- One match attempt of the number pattern `-?\d+\.?\d*` at the head of the
input, without the optional leading minus sign: one or more digits, then an
optional decimal point followed by zero or more digits (all greedy). -/
def numCore (r : List Char) : Option (List Char) :=
  let d1 := r.takeWhile Char.isDigit
  if d1.isEmpty then none
  else
    match r.dropWhile Char.isDigit with
    | '.' :: r2 => some (d1 ++ '.' :: r2.takeWhile Char.isDigit)
    | _ => some d1

/-- One match attempt of `-?\d+\.?\d*` at the head of the input: an optional
minus sign must be followed by at least one digit. -/
def numTokenAt (s : List Char) : Option (List Char) :=
  match s with
  | '-' :: rest => (numCore rest).map (fun tok => '-' :: tok)
  | _ => numCore s

/-- The first (leftmost) match of `-?\d+\.?\d*` in the response, as
`re.findall(...)[0]` yields it. -/
def firstNumToken : List Char → Option (List Char)
  | [] => none
  | c :: t =>
    match numTokenAt (c :: t) with
    | some tok => some tok
    | none => firstNumToken t

/-- `QuizSolver._extract_answer`: take the first number-shaped token of the
LLM response; with a decimal point it becomes a float, without one an int;
with no token at all the stripped response is returned as a string. -/
def extract_answer (resp : List Char) : Answer :=
  match firstNumToken resp with
  | some tok =>
    if tok.contains '.' then Answer.num (parseFloatTok tok)
    else Answer.int (parseIntTok tok)
  | none => Answer.str (pyStrip resp)

/-- All-digits test, used to state the shape of a number token. -/
def allDigits (l : List Char) : Bool :=
  l.all Char.isDigit

/-- Shape of an unsigned number token: a nonempty digit run, optionally
followed by a decimal point and a (possibly empty) digit run. -/
def numBody (l : List Char) : Bool :=
  !(l.takeWhile Char.isDigit).isEmpty &&
    (match l.dropWhile Char.isDigit with
     | [] => true
     | '.' :: r => allDigits r
     | _ => false)

/-- Shape of a number token: optional minus sign, then an unsigned number
token. -/
def isNumToken (tok : List Char) : Bool :=
  numBody tok ||
    (match tok with
     | '-' :: t => numBody t
     | _ => false)

/-- Parsed JSON body of a 200 submission response; each field may be absent
(`dict.get` semantics). -/
structure SubmitBody where
  correct : Option Bool
  url : Option (List Char)
  reason : Option (List Char)
deriving DecidableEq, Repr

/-- Outcome of one POST to the submit endpoint: an HTTP response with a status
code and (for 200) an optionally parseable JSON body, or a transport failure
(an exception out of the HTTP client, or a body that is not JSON). -/
inductive Wire
  | resp (status : Nat) (body : Option SubmitBody)
  | fail
deriving DecidableEq, Repr

/-- The JSON payload `{email, secret, url, answer}` posted on every attempt. -/
structure Payload where
  email : List Char
  secret : List Char
  url : List Char
  answer : Answer
deriving DecidableEq, Repr

/-- One result dictionary of the solver.  The source returns plain dicts whose
key sets differ per code path; an `Option` field with value `none` models a key
that is absent or set to Python `None` (the two are indistinguishable through
the `dict.get` reads the orchestrator performs).  `correct = none` is the
explicit `None` ("unknown") of the no-submit-URL path. -/
structure StepResult where
  url : List Char
  answer : Option Answer
  correct : Option Bool
  next_url : Option (List Char)
  reason : Option (List Char)
  attempt : Option Nat
  error : Option Err
deriving DecidableEq, Repr

/-- Did this POST outcome succeed (HTTP 200 with a parseable JSON body)?  Any
other outcome makes `_submit_answer` retry. -/
def isOk : Wire → Bool
  | Wire.resp 200 (some _) => true
  | _ => false

/-- The attempt loop of `QuizSolver._submit_answer` (lines 423-454): `attempt`
is the index of the next try, `remaining` the number of tries left.  On a 200
response with a parseable body the result is returned immediately; any other
status or a transport failure falls through to the next attempt; exhaustion
yields the final failure dict (which carries no attempt count). -/
def submitFrom (post : Payload → Nat → Wire) (quiz_url : List Char)
    (payload : Payload) (ans : Answer) : Nat → Nat → StepResult
  | _, 0 =>
    { url := quiz_url, answer := some ans, correct := some false,
      next_url := none, reason := none, attempt := none,
      error := some "Failed to submit after retries".data }
  | attempt, Nat.succ r =>
    match post payload attempt with
    | Wire.resp 200 (some body) =>
      { url := quiz_url, answer := some ans,
        correct := some (body.correct.getD false),
        next_url := body.url, reason := body.reason,
        attempt := some (attempt + 1), error := none }
    | _ => submitFrom post quiz_url payload ans (attempt + 1) r

/-- `QuizSolver._submit_answer`: build the payload and run the attempt loop.
`post` is the HTTP transport, taking the submit URL, the payload and the
attempt index. -/
def submit_answer (post : List Char → Payload → Nat → Wire)
    (submit_url quiz_url : List Char) (email secret : List Char)
    (ans : Answer) (max_retries : Nat) : StepResult :=
  submitFrom (post submit_url) quiz_url
    { email := email, secret := secret, url := quiz_url, answer := ans }
    ans 0 max_retries

/-- Per-page question information built by `_extract_question_info`. -/
structure QuestionInfo where
  text : List Char
  html : List Char
  type : QKind
  submit_url : Option (List Char)
  data_urls : List (List Char)
deriving DecidableEq, Repr

/-- `QuizSolver._extract_question_info`: submit URL from the HTML, data URLs
from the text, question type from the keyword chain. -/
def extract_question_info (text html : List Char) : QuestionInfo :=
  { text := text, html := html,
    type := classifyKind text,
    submit_url := extract_submit_url html,
    data_urls := find_urls text }

/-- The environment of external collaborators of one session, indexed by the
visit number `k` so that distinct visits may observe distinct behaviour:
browser startup, page rendering (`navigate` / `extract_text`), the three
genuinely kind-specific answer paths (which wrap the external
fetcher/parser/LLM collaborators), the LLM call of the general path, the HTTP
transport of submissions, and the wall-clock duration of each loop iteration
(`stepTime k` extra time units beyond the one unit every iteration takes). -/
structure Env where
  browserStart : Except Err Unit
  navigate : Nat → List Char → Except Err (List Char)
  extract_text : Nat → List Char → Except Err (List Char)
  solveFile : Nat → QuestionInfo → Except Err Answer
  solveApi : Nat → QuestionInfo → Except Err Answer
  solveData : Nat → QuestionInfo → Except Err Answer
  askLLM : Nat → List Char → Except Err (List Char)
  transport : Nat → List Char → Payload → Nat → Wire
  stepTime : Nat → Nat

/-- `QuizSolver._solve_general_question`: ask the LLM with the question text
alone and coerce the response. -/
def solve_general (env : Env) (k : Nat) (text : List Char) :
    Except Err Answer :=
  (env.askLLM k text).map extract_answer

/-- The `try` block of `QuizSolver._solve_question` (lines 214-226): dispatch
on the question type (`_solve_pdf_question` delegates to the file path and
`_solve_visualization_question` to the general path). -/
def kindAttempt (env : Env) (k : Nat) (info : QuestionInfo) :
    Except Err Answer :=
  match info.type with
  | QKind.file_download => env.solveFile k info
  | QKind.api_fetch => env.solveApi k info
  | QKind.pdf_analysis => env.solveFile k info
  | QKind.data_analysis => env.solveData k info
  | QKind.visualization => solve_general env k info.text
  | QKind.general => solve_general env k info.text

/-- `QuizSolver._solve_question` (lines 201-230): run the dispatched path;
any exception of the attempted path is caught and answered by a general-path
call instead. -/
def solve_question (env : Env) (k : Nat) (info : QuestionInfo) :
    Except Err Answer :=
  match kindAttempt env k info with
  | Except.ok a => Except.ok a
  | Except.error _ => solve_general env k info.text

/-- The failure dict of the `except` branch of `_solve_single_quiz`. -/
def failRes (url : List Char) (e : Err) : StepResult :=
  { url := url, answer := none, correct := some false, next_url := none,
    reason := none, attempt := none, error := some e }

/-- The dict returned when no submit URL is found on the page. -/
def noSubmitRes (url : List Char) (a : Answer) : StepResult :=
  { url := url, answer := some a, correct := none, next_url := none,
    reason := none, attempt := none, error := some "No submit URL found".data }

/-- `QuizSolver._solve_single_quiz`: render, classify, solve, resolve the
submit URL (re-extracting from the HTML when the info holds none) and submit;
any exception out of rendering or answer production becomes the failure dict. -/
def solve_single_quiz (env : Env) (email secret : List Char) (k : Nat)
    (url : List Char) : StepResult :=
  match env.navigate k url with
  | Except.error e => failRes url e
  | Except.ok html =>
    match env.extract_text k url with
    | Except.error e => failRes url e
    | Except.ok text =>
      let info := extract_question_info text html
      match solve_question env k info with
      | Except.error e => failRes url e
      | Except.ok a =>
        let su :=
          match info.submit_url with
          | some u => some u
          | none => extract_submit_url html
        match su with
        | some u => submit_answer (env.transport k) u url email secret a 3
        | none => noSubmitRes url a

/-- The traversal loop of `QuizSolver.solve_quiz` (lines 50-76).  `k` is the
visit number, `elapsed` the time since `start_time`, `u` the current URL and
`acc` the accumulated `results`.  The deadline is checked only at the top of
an iteration; each iteration then advances time by `1 + stepTime k` units
(every iteration consumes a positive wall-clock duration).  After a step the
loop follows `next_url` when present — in both the correct and the
not-correct branch of the source — and stops when it is absent.  The first
argument is recursion fuel: `solveLoop` instantiates it large enough that it
never runs out, so the `0` case (which returns like the deadline branch) is
unreachable. -/
def solveLoopF (env : Env) (email secret : List Char) (mt : Nat) :
    Nat → Nat → Nat → List Char → List StepResult → List StepResult × Nat
  | 0, _, elapsed, _, acc => (acc, elapsed)
  | Nat.succ f, k, elapsed, u, acc =>
    if mt < elapsed then (acc, elapsed)
    else
      let r := solve_single_quiz env email secret k u
      if r.correct = some true then
        match r.next_url with
        | some v =>
          solveLoopF env email secret mt f (k + 1)
            (elapsed + 1 + env.stepTime k) v (acc ++ [r])
        | none => (acc ++ [r], elapsed + 1 + env.stepTime k)
      else
        match r.next_url with
        | some v =>
          solveLoopF env email secret mt f (k + 1)
            (elapsed + 1 + env.stepTime k) v (acc ++ [r])
        | none => (acc ++ [r], elapsed + 1 + env.stepTime k)

/-- The traversal loop with sufficient fuel: since every iteration advances
`elapsed` by at least one unit, `mt + 2 - elapsed` iterations always reach the
deadline or a stop condition first. -/
def solveLoop (env : Env) (email secret : List Char) (mt k elapsed : Nat)
    (u : List Char) (acc : List StepResult) : List StepResult × Nat :=
  solveLoopF env email secret mt (mt + 2 - elapsed) k elapsed u acc

/-- `SessionSummary`: the dictionary returned by `solve_quiz`.  The success
branch carries the results and the elapsed time; the failure branch (reachable
only out of browser startup, the lone statement of the `try` block outside the
loop that can raise) carries the error text and the results gathered so far
(none, since the loop has not run). -/
structure Summary where
  success : Bool
  results : List StepResult
  error : Option Err
  total_time : Option Nat
deriving DecidableEq, Repr

/-- `QuizSolver.solve_quiz` (lines 33-91): start the browser, run the
traversal loop, and report success; an exception escaping the `try` block
yields the failure dictionary instead. -/
def solve_quiz (env : Env) (email secret : List Char) (mt : Nat)
    (initial_url : List Char) : Summary :=
  match env.browserStart with
  | Except.error e =>
    { success := false, results := [], error := some e, total_time := none }
  | Except.ok _ =>
    let p := solveLoop env email secret mt 0 0 initial_url []
    { success := true, results := p.1, error := none, total_time := some p.2 }

lemma solveLoopF_irrel (env : Env) (email secret : List Char) (mt : Nat) :
    ∀ f g k elapsed u acc,
      (mt < elapsed ∨ mt + 1 - elapsed < f) →
      (mt < elapsed ∨ mt + 1 - elapsed < g) →
      solveLoopF env email secret mt f k elapsed u acc =
        solveLoopF env email secret mt g k elapsed u acc := by
  intro f
  induction f with
  | zero =>
    intro g k elapsed u acc hf _
    have h : mt < elapsed := by omega
    match g with
    | 0 => rfl
    | Nat.succ g => simp only [solveLoopF, if_pos h]
  | succ f ih =>
    intro g k elapsed u acc hf hg
    match g with
    | 0 =>
      have h : mt < elapsed := by omega
      simp only [solveLoopF, if_pos h]
    | Nat.succ g =>
      by_cases h : mt < elapsed
      · simp only [solveLoopF, if_pos h]
      · simp only [solveLoopF, if_neg h]
        by_cases hc :
            (solve_single_quiz env email secret k u).correct = some true
        · simp only [if_pos hc]
          cases hn : (solve_single_quiz env email secret k u).next_url with
          | none => rfl
          | some v => exact ih _ _ _ _ _ (by omega) (by omega)
        · simp only [if_neg hc]
          cases hn : (solve_single_quiz env email secret k u).next_url with
          | none => rfl
          | some v => exact ih _ _ _ _ _ (by omega) (by omega)

lemma solveLoop_deadline (env : Env) (email secret : List Char)
    (mt k elapsed : Nat) (u : List Char) (acc : List StepResult)
    (h : mt < elapsed) :
    solveLoop env email secret mt k elapsed u acc = (acc, elapsed) := by
  unfold solveLoop
  cases hf : mt + 2 - elapsed with
  | zero => rfl
  | succ f => simp only [solveLoopF, if_pos h]

lemma solveLoop_step (env : Env) (email secret : List Char)
    (mt k elapsed : Nat) (u : List Char) (acc : List StepResult)
    (h : ¬ mt < elapsed) :
    solveLoop env email secret mt k elapsed u acc =
      match (solve_single_quiz env email secret k u).next_url with
      | some v =>
        solveLoop env email secret mt (k + 1) (elapsed + 1 + env.stepTime k)
          v (acc ++ [solve_single_quiz env email secret k u])
      | none =>
        (acc ++ [solve_single_quiz env email secret k u],
          elapsed + 1 + env.stepTime k) := by
  have h1 : mt + 2 - elapsed = (mt + 1 - elapsed) + 1 := by omega
  unfold solveLoop
  rw [h1]
  simp only [solveLoopF, if_neg h]
  by_cases hc : (solve_single_quiz env email secret k u).correct = some true
  · simp only [if_pos hc]
    cases hn : (solve_single_quiz env email secret k u).next_url with
    | none => rfl
    | some v =>
      exact solveLoopF_irrel env email secret mt (mt + 1 - elapsed)
        (mt + 2 - (elapsed + 1 + env.stepTime k)) (k + 1)
        (elapsed + 1 + env.stepTime k) v
        (acc ++ [solve_single_quiz env email secret k u])
        (by omega) (by omega)
  · simp only [if_neg hc]
    cases hn : (solve_single_quiz env email secret k u).next_url with
    | none => rfl
    | some v =>
      exact solveLoopF_irrel env email secret mt (mt + 1 - elapsed)
        (mt + 2 - (elapsed + 1 + env.stepTime k)) (k + 1)
        (elapsed + 1 + env.stepTime k) v
        (acc ++ [solve_single_quiz env email secret k u])
        (by omega) (by omega)

lemma solveLoop_stop (env : Env) (email secret : List Char)
    (mt k elapsed : Nat) (u : List Char) (acc : List StepResult)
    (h : ¬ mt < elapsed)
    (hn : (solve_single_quiz env email secret k u).next_url = none) :
    solveLoop env email secret mt k elapsed u acc =
      (acc ++ [solve_single_quiz env email secret k u],
        elapsed + 1 + env.stepTime k) := by
  rw [solveLoop_step env email secret mt k elapsed u acc h, hn]

lemma solveLoop_cont (env : Env) (email secret : List Char)
    (mt k elapsed : Nat) (u v : List Char) (acc : List StepResult)
    (h : ¬ mt < elapsed)
    (hn : (solve_single_quiz env email secret k u).next_url = some v) :
    solveLoop env email secret mt k elapsed u acc =
      solveLoop env email secret mt (k + 1) (elapsed + 1 + env.stepTime k)
        v (acc ++ [solve_single_quiz env email secret k u]) := by
  rw [solveLoop_step env email secret mt k elapsed u acc h, hn]

lemma takeWhile_all_append {p : Char → Bool} :
    ∀ l1 : List Char, (∀ x ∈ l1, p x = true) → ∀ {c : Char}, p c = false →
      ∀ l2 : List Char,
        (l1 ++ c :: l2).takeWhile p = l1 ∧ (l1 ++ c :: l2).dropWhile p = c :: l2 := by
  intro l1
  induction l1 with
  | nil =>
    intro _ c hc l2
    constructor
    · simp [List.takeWhile_cons, hc]
    · simp [List.dropWhile_cons, hc]
  | cons a l1 ih =>
    intro h c hc l2
    have ha : p a = true := h a (List.mem_cons_self a l1)
    have htail : ∀ x ∈ l1, p x = true :=
      fun x hx => h x (List.mem_cons_of_mem a hx)
    obtain ⟨h1, h2⟩ := ih htail hc l2
    constructor
    · simp [List.takeWhile_cons, ha, h1]
    · simp [List.dropWhile_cons, ha, h2]

lemma takeWhile_eq_nil_of_none {p : Char → Bool} {l : List Char}
    (h : ∀ x ∈ l, p x = false) : l.takeWhile p = [] := by
  cases l with
  | nil => rfl
  | cons a t => simp [List.takeWhile_cons, h a (List.mem_cons_self a t)]

lemma numCore_shape {r tok : List Char} (h : numCore r = some tok) :
    numBody tok = true ∧ tok <+: r := by
  have hall : ∀ x ∈ r.takeWhile Char.isDigit, Char.isDigit x = true :=
    fun x hx => List.mem_takeWhile_imp hx
  have htw : (r.takeWhile Char.isDigit).takeWhile Char.isDigit =
      r.takeWhile Char.isDigit := by
    rw [List.takeWhile_eq_self_iff]
    intro x hx
    exact hall x hx
  have hdw : (r.takeWhile Char.isDigit).dropWhile Char.isDigit = [] := by
    rw [List.dropWhile_eq_nil_iff]
    intro x hx
    exact hall x hx
  unfold numCore at h
  by_cases he : (r.takeWhile Char.isDigit).isEmpty = true
  · rw [if_pos he] at h
    exact absurd h (by simp)
  · rw [if_neg he] at h
    split at h
    next r2 heq =>
      have htok : tok = r.takeWhile Char.isDigit ++ '.' ::
          r2.takeWhile Char.isDigit := (Option.some_inj.mp h).symm
      have hdot : Char.isDigit '.' = false := by decide
      have hshape := takeWhile_all_append (r.takeWhile Char.isDigit) hall hdot
        (r2.takeWhile Char.isDigit)
      constructor
      · unfold numBody
        rw [htok, hshape.1, hshape.2]
        have : allDigits (r2.takeWhile Char.isDigit) = true := by
          unfold allDigits
          rw [List.all_eq_true]
          intro x hx
          exact List.mem_takeWhile_imp hx
        simp [he, this]
      · rw [htok]
        have hpre : ('.' :: r2.takeWhile Char.isDigit) <+: ('.' :: r2) :=
          List.cons_prefix_cons.mpr ⟨rfl, List.takeWhile_prefix _⟩
        obtain ⟨s, hs⟩ := hpre
        refine ⟨s, ?_⟩
        rw [List.append_assoc, hs, ← heq]
        exact List.takeWhile_append_dropWhile Char.isDigit r
    next =>
      have htok : tok = r.takeWhile Char.isDigit := (Option.some_inj.mp h).symm
      constructor
      · unfold numBody
        rw [htok, htw, hdw]
        simp [he]
      · rw [htok]
        exact List.takeWhile_prefix _

lemma numTokenAt_shape {s tok : List Char} (h : numTokenAt s = some tok) :
    isNumToken tok = true ∧ tok <+: s := by
  unfold numTokenAt at h
  split at h
  next rest =>
    rw [Option.map_eq_some'] at h
    obtain ⟨t, hc, htk⟩ := h
    · have htok : tok = '-' :: t := htk.symm
      obtain ⟨hb, hp⟩ := numCore_shape hc
      subst htok
      constructor
      · unfold isNumToken
        simp [hb]
      · exact List.cons_prefix_cons.mpr ⟨rfl, hp⟩
  next =>
    obtain ⟨hb, hp⟩ := numCore_shape h
    exact ⟨by unfold isNumToken; simp [hb], hp⟩

lemma firstNumToken_shape :
    ∀ {resp tok : List Char}, firstNumToken resp = some tok →
      isNumToken tok = true ∧ tok <:+: resp := by
  intro resp
  induction resp with
  | nil => intro tok h; simp [firstNumToken] at h
  | cons c t ih =>
    intro tok h
    unfold firstNumToken at h
    cases ha : numTokenAt (c :: t) with
    | some tk =>
      rw [ha] at h
      have : tk = tok := Option.some_inj.mp h
      subst this
      obtain ⟨h1, h2⟩ := numTokenAt_shape ha
      exact ⟨h1, h2.isInfix⟩
    | none =>
      rw [ha] at h
      obtain ⟨h1, h2⟩ := ih h
      exact ⟨h1, List.infix_cons h2⟩

lemma firstNumToken_none :
    ∀ {resp : List Char}, (∀ c ∈ resp, Char.isDigit c = false) →
      firstNumToken resp = none := by
  intro resp
  induction resp with
  | nil => intro _; rfl
  | cons c t ih =>
    intro h
    have htail : ∀ x ∈ t, Char.isDigit x = false :=
      fun x hx => h x (List.mem_cons_of_mem c hx)
    have hhead : Char.isDigit c = false := h c (List.mem_cons_self c t)
    have hstep : numTokenAt (c :: t) = none := by
      unfold numTokenAt
      split
      next rest heq =>
        have hrest : rest = t := by
          injection heq with h1 h2
          exact h2.symm
        have : numCore rest = none := by
          unfold numCore
          rw [hrest, takeWhile_eq_nil_of_none htail]
          simp
        rw [this]
        rfl
      next =>
        unfold numCore
        rw [takeWhile_eq_nil_of_none h]
        simp
    unfold firstNumToken
    rw [hstep]
    exact ih htail

lemma submitFrom_skip (post : Payload → Nat → Wire) (qu : List Char)
    (p : Payload) (a : Answer) (attempt r : Nat)
    (h : isOk (post p attempt) = false) :
    submitFrom post qu p a attempt (r + 1) =
      submitFrom post qu p a (attempt + 1) r := by
  conv_lhs => rw [submitFrom]
  split
  next body heq =>
    rw [heq] at h
    simp [isOk] at h
  next => rfl

lemma submitFrom_exhaust (post : Payload → Nat → Wire) (qu : List Char)
    (p : Payload) (a : Answer) :
    ∀ remaining attempt,
      (∀ i, attempt ≤ i → i < attempt + remaining → isOk (post p i) = false) →
      submitFrom post qu p a attempt remaining =
        { url := qu, answer := some a, correct := some false, next_url := none,
          reason := none, attempt := none,
          error := some "Failed to submit after retries".data } := by
  intro remaining
  induction remaining with
  | zero => intro attempt _; rfl
  | succ r ih =>
    intro attempt h
    rw [submitFrom_skip post qu p a attempt r
      (h attempt (le_refl _) (by omega))]
    exact ih (attempt + 1) (fun i h1 h2 => h i (by omega) (by omega))

lemma submitFrom_ok (post : Payload → Nat → Wire) (qu : List Char)
    (p : Payload) (a : Answer) (body : SubmitBody) :
    ∀ remaining attempt n, attempt ≤ n → n - attempt < remaining →
      post p n = Wire.resp 200 (some body) →
      (∀ i, attempt ≤ i → i < n → isOk (post p i) = false) →
      submitFrom post qu p a attempt remaining =
        { url := qu, answer := some a,
          correct := some (body.correct.getD false),
          next_url := body.url, reason := body.reason,
          attempt := some (n + 1), error := none } := by
  intro remaining
  induction remaining with
  | zero =>
    intro attempt n h1 h2 _ _
    exact absurd h2 (Nat.not_lt_zero _)
  | succ r ih =>
    intro attempt n h1 h2 hok hprev
    by_cases he : attempt = n
    · subst he
      unfold submitFrom
      rw [hok]
    · have hlt : attempt < n := by omega
      rw [submitFrom_skip post qu p a attempt r
        (hprev attempt (le_refl _) hlt)]
      exact ih (attempt + 1) n (by omega) (by omega) hok
        (fun i hi1 hi2 => hprev i (by omega) hi2)

/-- A transport that always answers HTTP 500, for the submission-exhaustion
scenario. -/
def post500 : List Char → Payload → Nat → Wire :=
  fun _ _ _ => Wire.resp 500 none

/-- A transport that answers HTTP 500 twice and then HTTP 200 with
`{correct: true, url: "next"}`, for the submission-retry scenario. -/
def postRetry : List Char → Payload → Nat → Wire :=
  fun _ _ i =>
    if i < 2 then Wire.resp 500 none
    else Wire.resp 200 (some ⟨some true, some "next".data, none⟩)

/-- C6: a submission attempt that receives HTTP 200 parses the body and
returns immediately — the result carries the body's `correct` (defaulting to
`false`), `next_url` equal to the body's `url`, and the one-based number of
the attempt that succeeded; later attempts are never consulted. -/
theorem C6_submit_200_returns_immediately
    (post : List Char → Payload → Nat → Wire)
    (su qu email secret : List Char) (a : Answer) (body : SubmitBody)
    (n maxr : Nat) (hn : n < maxr)
    (hok : post su { email := email, secret := secret, url := qu, answer := a }
      n = Wire.resp 200 (some body))
    (hprev : ∀ i, i < n →
      isOk (post su { email := email, secret := secret, url := qu, answer := a }
        i) = false) :
    submit_answer post su qu email secret a maxr =
      { url := qu, answer := some a,
        correct := some (body.correct.getD false),
        next_url := body.url, reason := body.reason,
        attempt := some (n + 1), error := none } := by
  unfold submit_answer
  exact submitFrom_ok (post su) qu _ a body maxr 0 n (Nat.zero_le n)
    (by omega) hok (fun i _ h2 => hprev i h2)

/-- Witness for C6: the concrete retry scenario of the claim — two non-200
responses, then 200 with `{correct: true, url: "next"}` on attempt 3. -/
theorem C6_witness :
    submit_answer postRetry "http://q/submit".data "http://q".data
      "e".data "s".data (Answer.int 1) 3 =
      { url := "http://q".data, answer := some (Answer.int 1),
        correct := some true, next_url := some "next".data, reason := none,
        attempt := some 3, error := none } :=
  C6_submit_200_returns_immediately postRetry _ _ _ _ _
    ⟨some true, some "next".data, none⟩
    2 3 (by decide) (by decide) (by decide)

/-- C5 counterexample: with a transport that always answers HTTP 500 and
`maxAttempts = 3`, the exhaustion result's `errorDetail` is the literal
`"Failed to submit after retries"`, not `"submission failed after retries"`,
and the result carries no attempt count at all (its `attempt` key is absent),
so `attemptCount = maxAttempts` fails as well. -/
theorem C5_counterexample :
    (submit_answer post500 "http://q/submit".data "http://q".data
        "e".data "s".data (Answer.int 1) 3).attempt ≠ some 3
    ∧ (submit_answer post500 "http://q/submit".data "http://q".data
        "e".data "s".data (Answer.int 1) 3).error ≠
        some "submission failed after retries".data
    ∧ (submit_answer post500 "http://q/submit".data "http://q".data
        "e".data "s".data (Answer.int 1) 3).error =
        some "Failed to submit after retries".data
    ∧ (submit_answer post500 "http://q/submit".data "http://q".data
        "e".data "s".data (Answer.int 1) 3).correct = some false := by
  refine ⟨by decide, by decide, by decide, by decide⟩

/-- C5 as amended: when every attempt fails to obtain a parseable HTTP 200
response, the submission returns `correct = false` and the non-null error
detail `"Failed to submit after retries"`, and carries no attempt count. -/
theorem C5_exhaustion (post : List Char → Payload → Nat → Wire)
    (su qu email secret : List Char) (a : Answer) (maxr : Nat)
    (h : ∀ i, i < maxr →
      isOk (post su { email := email, secret := secret, url := qu, answer := a }
        i) = false) :
    submit_answer post su qu email secret a maxr =
      { url := qu, answer := some a, correct := some false, next_url := none,
        reason := none, attempt := none,
        error := some "Failed to submit after retries".data } := by
  unfold submit_answer
  exact submitFrom_exhaust (post su) qu _ a maxr 0 (fun i _ h2 => h i (by omega))

/-- Witness for C5: the always-500 endpoint with three attempts. -/
theorem C5_witness :
    submit_answer post500 "http://q/submit".data "http://q".data
      "e".data "s".data (Answer.int 1) 3 =
      { url := "http://q".data, answer := some (Answer.int 1),
        correct := some false, next_url := none, reason := none,
        attempt := none,
        error := some "Failed to submit after retries".data } :=
  C5_exhaustion post500 _ _ _ _ _ 3 (by decide)

/-- C3: the classifier decides the question kind by first-match priority over
the lower-cased page text — "download"/"file" wins, else "api"/"endpoint",
else "sum"/"calculate"/"table", else "visualize"/"chart"/"plot", else "pdf",
else `general`. -/
theorem C3_classification_priority (text : List Char) :
    (kwFileDownload (lowerStr text) = true →
      classifyKind text = QKind.file_download)
    ∧ (kwFileDownload (lowerStr text) = false →
        kwApiFetch (lowerStr text) = true →
        classifyKind text = QKind.api_fetch)
    ∧ (kwFileDownload (lowerStr text) = false →
        kwApiFetch (lowerStr text) = false →
        kwDataAnalysis (lowerStr text) = true →
        classifyKind text = QKind.data_analysis)
    ∧ (kwFileDownload (lowerStr text) = false →
        kwApiFetch (lowerStr text) = false →
        kwDataAnalysis (lowerStr text) = false →
        kwVisualization (lowerStr text) = true →
        classifyKind text = QKind.visualization)
    ∧ (kwFileDownload (lowerStr text) = false →
        kwApiFetch (lowerStr text) = false →
        kwDataAnalysis (lowerStr text) = false →
        kwVisualization (lowerStr text) = false →
        kwPdf (lowerStr text) = true →
        classifyKind text = QKind.pdf_analysis)
    ∧ (kwFileDownload (lowerStr text) = false →
        kwApiFetch (lowerStr text) = false →
        kwDataAnalysis (lowerStr text) = false →
        kwVisualization (lowerStr text) = false →
        kwPdf (lowerStr text) = false →
        classifyKind text = QKind.general) := by
  refine ⟨?_, ?_, ?_, ?_, ?_, ?_⟩
  · intro h1
    simp [classifyKind, h1]
  · intro h1 h2
    simp [classifyKind, h1, h2]
  · intro h1 h2 h3
    simp [classifyKind, h1, h2, h3]
  · intro h1 h2 h3 h4
    simp [classifyKind, h1, h2, h3, h4]
  · intro h1 h2 h3 h4 h5
    simp [classifyKind, h1, h2, h3, h4, h5]
  · intro h1 h2 h3 h4 h5
    simp [classifyKind, h1, h2, h3, h4, h5]

/-- Witness for C3: the claim's tie-break instance — a text containing both
"api" and "pdf" but neither "download" nor "file" classifies as `api_fetch`,
through the second rule of the priority chain. -/
theorem C3_witness :
    classifyKind "Query the api and report the pdf total".data =
      QKind.api_fetch :=
  (C3_classification_priority "Query the api and report the pdf total".data).2.1
    (by decide) (by decide)

/-- C4: answer coercion — the two concrete coercions of the claim; any
first number-shaped token found is shaped `optional minus sign, digits,
optional decimal point and digits` and occurs in the response, and decides
the result as a float (token with a decimal point) or an int (without);
and a response with no digit at all is returned as its stripped text. -/
theorem C4_answer_coercion :
    extract_answer "The answer is -3.5 units".data = Answer.num (-(7 / 2 : ℚ))
    ∧ extract_answer "no numeric value".data =
        Answer.str "no numeric value".data
    ∧ (∀ resp tok : List Char, firstNumToken resp = some tok →
        isNumToken tok = true ∧ tok <:+: resp ∧
        extract_answer resp =
          (if tok.contains '.' then Answer.num (parseFloatTok tok)
           else Answer.int (parseIntTok tok)))
    ∧ (∀ resp : List Char, (∀ c ∈ resp, Char.isDigit c = false) →
        extract_answer resp = Answer.str (pyStrip resp)) := by
  refine ⟨?_, by decide, ?_, ?_⟩
  · have h : firstNumToken "The answer is -3.5 units".data =
        some ('-' :: '3' :: '.' :: '5' :: []) := by decide
    unfold extract_answer
    rw [h]
    have h1 : (('-' :: '3' :: '.' :: '5' :: []) : List Char).contains '.' =
        true := by decide
    simp only [h1, if_true]
    have key : parseFloatCore ('3' :: '.' :: '5' :: []) = 7 / 2 := by
      show (digitsVal ['3'] : ℚ) +
        (digitsVal ['5'] : ℚ) / (10 : ℚ) ^ (['5'] : List Char).length = 7 / 2
      have h5 : digitsVal ['3'] = 3 := by decide
      have h6 : digitsVal ['5'] = 5 := by decide
      rw [h5, h6]
      norm_num
    have key2 : parseFloatTok ('-' :: '3' :: '.' :: '5' :: []) =
        -(7 / 2 : ℚ) := by
      show -(parseFloatCore ('3' :: '.' :: '5' :: [])) = -(7 / 2 : ℚ)
      rw [key]
    rw [key2]
  · intro resp tok h
    obtain ⟨h1, h2⟩ := firstNumToken_shape h
    refine ⟨h1, h2, ?_⟩
    unfold extract_answer
    rw [h]
  · intro resp h
    unfold extract_answer
    rw [firstNumToken_none h]

/-- Witness for C4: the token-shape facts at the concrete response
"count: 12 items", and the stripped-text fallback at a digit-free padded
response. -/
theorem C4_witness :
    (isNumToken "12".data = true ∧ "12".data <:+: "count: 12 items".data ∧
      extract_answer "count: 12 items".data =
        (if ("12".data).contains '.' then
          Answer.num (parseFloatTok "12".data)
         else Answer.int (parseIntTok "12".data)))
    ∧ extract_answer "  pad  ".data = Answer.str (pyStrip "  pad  ".data) :=
  ⟨C4_answer_coercion.2.2.1 "count: 12 items".data "12".data (by decide),
   C4_answer_coercion.2.2.2 "  pad  ".data (by decide)⟩

/-- The first uncaught exception (if any) among the raising call sites of the
`try` block of `_solve_single_quiz`: page navigation, text extraction, and
answer production (which, per `_solve_question`, can only fail out of the
general fallback path). -/
def stepExn (env : Env) (k : Nat) (url : List Char) : Option Err :=
  match env.navigate k url with
  | Except.error e => some e
  | Except.ok html =>
    match env.extract_text k url with
    | Except.error e => some e
    | Except.ok text =>
      match solve_question env k (extract_question_info text html) with
      | Except.error e => some e
      | Except.ok _ => none

lemma solve_single_fail (env : Env) (email secret : List Char) (k : Nat)
    (url : List Char) (e : Err) (h : stepExn env k url = some e) :
    solve_single_quiz env email secret k url = failRes url e := by
  unfold stepExn at h
  unfold solve_single_quiz
  cases h1 : env.navigate k url with
  | error e1 =>
    simp only [h1] at h ⊢
    rw [Option.some_inj.mp h]
  | ok html =>
    simp only [h1] at h ⊢
    cases h2 : env.extract_text k url with
    | error e2 =>
      simp only [h2] at h ⊢
      rw [Option.some_inj.mp h]
    | ok text =>
      simp only [h2] at h ⊢
      cases h3 : solve_question env k (extract_question_info text html) with
      | error e3 =>
        simp only [h3] at h ⊢
        rw [Option.some_inj.mp h]
      | ok a =>
        simp only [h3] at h
        exact Option.noConfusion h

lemma solve_single_ok_noSubmit (env : Env) (email secret : List Char)
    (k : Nat) (url html text : List Char) (a : Answer)
    (hnav : env.navigate k url = Except.ok html)
    (htext : env.extract_text k url = Except.ok text)
    (hsolve : solve_question env k (extract_question_info text html) =
      Except.ok a)
    (hsub : extract_submit_url html = none) :
    solve_single_quiz env email secret k url = noSubmitRes url a := by
  unfold solve_single_quiz
  simp only [extract_question_info, hsub] at hsolve
  simp only [hnav, htext, extract_question_info, hsub, hsolve]

lemma solve_single_ok_submit (env : Env) (email secret : List Char)
    (k : Nat) (url html text : List Char) (a : Answer) (su : List Char)
    (hnav : env.navigate k url = Except.ok html)
    (htext : env.extract_text k url = Except.ok text)
    (hsolve : solve_question env k (extract_question_info text html) =
      Except.ok a)
    (hsub : extract_submit_url html = some su) :
    solve_single_quiz env email secret k url =
      submit_answer (env.transport k) su url email secret a 3 := by
  unfold solve_single_quiz
  simp only [extract_question_info, hsub] at hsolve
  simp only [hnav, htext, extract_question_info, hsub, hsolve]

/-- A session whose first page rendering raises "boom"; every other
collaborator behaves normally. -/
def envC1 : Env :=
  { browserStart := Except.ok ()
    navigate := fun _ _ => Except.error "boom".data
    extract_text := fun _ _ => Except.ok []
    solveFile := fun _ _ => Except.error "unused".data
    solveApi := fun _ _ => Except.error "unused".data
    solveData := fun _ _ => Except.error "unused".data
    askLLM := fun _ _ => Except.ok "42".data
    transport := fun _ _ _ _ => Wire.fail
    stepTime := fun _ => 0 }

/-- C1 counterexample: a step of the loop raises an uncaught failure
("boom" out of rendering); the orchestrator records the failed `StepResult`
and stops, but the returned summary has `success = true`, not
`success = false` as the claim states. -/
theorem C1_counterexample :
    stepExn envC1 0 "http://quiz/1".data = some "boom".data
    ∧ (solve_quiz envC1 "e".data "s".data 180 "http://quiz/1".data).success =
        true
    ∧ (solve_quiz envC1 "e".data "s".data 180 "http://quiz/1".data).results =
        [failRes "http://quiz/1".data "boom".data] := by
  refine ⟨by decide, by decide, by decide⟩

/-- C1 as amended: whenever a step of the loop — at any visit `k`, with any
previously completed steps `acc` already in the history — raises an uncaught
failure, the orchestrator appends a failed `StepResult` (`correct = false`,
the exception text as error detail) for the current URL to that history and
stops the loop; and every session whose browser starts normally (in
particular every such failure session) returns `success = true` with the
loop's accumulated history.  `success = false` arises only when a failure
escapes the loop itself (browser startup), in which case no `StepResult` is
recorded. -/
theorem C1_step_failure_semantics :
    (∀ (env : Env) (email secret : List Char) (mt k elapsed : Nat)
        (u : List Char) (acc : List StepResult) (e : Err), ¬ mt < elapsed →
        stepExn env k u = some e →
        solveLoop env email secret mt k elapsed u acc =
          (acc ++ [failRes u e], elapsed + 1 + env.stepTime k))
    ∧ (∀ (env : Env) (email secret : List Char) (mt : Nat) (u : List Char),
        env.browserStart = Except.ok () →
        (solve_quiz env email secret mt u).success = true
        ∧ (solve_quiz env email secret mt u).results =
            (solveLoop env email secret mt 0 0 u []).1) := by
  constructor
  · intro env email secret mt k elapsed u acc e ht hexn
    have hstep := solve_single_fail env email secret k u e hexn
    have hnext : (solve_single_quiz env email secret k u).next_url = none := by
      rw [hstep]
      rfl
    rw [solveLoop_stop env email secret mt k elapsed u acc ht hnext, hstep]
  · intro env email secret mt u hstart
    unfold solve_quiz
    rw [hstart]
    exact ⟨rfl, rfl⟩

/-- A session whose first step completes normally (its submission directs to
a second page) and whose second page's rendering raises "boom". -/
def envC1b : Env :=
  { browserStart := Except.ok ()
    navigate := fun k _ =>
      if k = 0 then Except.ok "see http://h/submit ok".data
      else Except.error "boom".data
    extract_text := fun _ _ => Except.ok "hi".data
    solveFile := fun _ _ => Except.error "unused".data
    solveApi := fun _ _ => Except.error "unused".data
    solveData := fun _ _ => Except.error "unused".data
    askLLM := fun _ _ => Except.ok "1".data
    transport := fun _ _ _ _ =>
      Wire.resp 200 (some ⟨some true, some "http://quiz/2".data, none⟩)
    stepTime := fun _ => 0 }

/-- Witness for C1 (amended): a mid-session failure — visit 1 of the session
raises "boom" after a completed first step already sits in the history; the
loop appends the failed step to that history and stops, and the whole session
reports `success = true` with exactly the completed step followed by the
failed one. -/
theorem C1_witness :
    stepExn envC1b 1 "http://quiz/2".data = some "boom".data
    ∧ solveLoop envC1b "e".data "s".data 60 1 1 "http://quiz/2".data
        [solve_single_quiz envC1b "e".data "s".data 0 "http://quiz/1".data] =
      ([solve_single_quiz envC1b "e".data "s".data 0 "http://quiz/1".data] ++
        [failRes "http://quiz/2".data "boom".data],
        1 + 1 + envC1b.stepTime 1)
    ∧ (solve_quiz envC1b "e".data "s".data 60 "http://quiz/1".data).success =
        true
    ∧ (solve_quiz envC1b "e".data "s".data 60 "http://quiz/1".data).results =
        (solveLoop envC1b "e".data "s".data 60 0 0 "http://quiz/1".data []).1
    ∧ (solve_quiz envC1b "e".data "s".data 60 "http://quiz/1".data).results =
        [solve_single_quiz envC1b "e".data "s".data 0 "http://quiz/1".data,
          failRes "http://quiz/2".data "boom".data] :=
  ⟨by decide,
   C1_step_failure_semantics.1 envC1b "e".data "s".data 60 1 1
     "http://quiz/2".data
     [solve_single_quiz envC1b "e".data "s".data 0 "http://quiz/1".data]
     "boom".data (by decide) (by decide),
   (C1_step_failure_semantics.2 envC1b "e".data "s".data 60
     "http://quiz/1".data rfl).1,
   (C1_step_failure_semantics.2 envC1b "e".data "s".data 60
     "http://quiz/1".data rfl).2,
   by decide⟩

/-- C2: the deadline is checked only at the top of the loop — once the
elapsed time exceeds `maxDuration` the loop begins no new step and returns the
accumulated history unchanged — and a session whose browser starts normally
always reports `success = true` with exactly the loop's accumulated history,
so in particular a deadline-terminated session does. -/
theorem C2_deadline_semantics :
    (∀ (env : Env) (email secret : List Char) (mt k elapsed : Nat)
        (u : List Char) (acc : List StepResult), mt < elapsed →
        solveLoop env email secret mt k elapsed u acc = (acc, elapsed))
    ∧ (∀ (env : Env) (email secret : List Char) (mt : Nat) (u : List Char),
        env.browserStart = Except.ok () →
        solve_quiz env email secret mt u =
          { success := true,
            results := (solveLoop env email secret mt 0 0 u []).1,
            error := none,
            total_time := some (solveLoop env email secret mt 0 0 u []).2 }) := by
  constructor
  · exact fun env email secret mt k elapsed u acc h =>
      solveLoop_deadline env email secret mt k elapsed u acc h
  · intro env email secret mt u hstart
    unfold solve_quiz
    rw [hstart]

/-- A session whose every page solves and submits successfully, each step
consuming 11 time units, and whose submissions always direct to a next URL:
only the deadline can end it. -/
def envC2 : Env :=
  { browserStart := Except.ok ()
    navigate := fun _ _ => Except.ok "go to http://h/submit now".data
    extract_text := fun _ _ => Except.ok "hello".data
    solveFile := fun _ _ => Except.error "unused".data
    solveApi := fun _ _ => Except.error "unused".data
    solveData := fun _ _ => Except.error "unused".data
    askLLM := fun _ _ => Except.ok "ok".data
    transport := fun _ _ _ _ =>
      Wire.resp 200 (some ⟨some true, some "http://quiz/next".data, none⟩)
    stepTime := fun _ => 10 }

/-- Witness for C2: past the deadline the loop adds nothing, and the
never-ending session with budget 15 stops by deadline with `success = true`
and exactly the 2 steps completed before it. -/
theorem C2_witness :
    solveLoop envC2 "e".data "s".data 15 2 22 "http://quiz/x".data [] =
      ([], 22)
    ∧ (solve_quiz envC2 "e".data "s".data 15 "http://quiz/1".data).success =
        true
    ∧ (solve_quiz envC2 "e".data "s".data 15
        "http://quiz/1".data).results.length = 2 :=
  ⟨C2_deadline_semantics.1 envC2 "e".data "s".data 15 2 22
      "http://quiz/x".data [] (by decide),
   by rw [C2_deadline_semantics.2 envC2 "e".data "s".data 15
      "http://quiz/1".data rfl],
   by decide⟩

/-- A session whose page carries no submit URL. -/
def envC7 : Env :=
  { browserStart := Except.ok ()
    navigate := fun _ _ => Except.ok "a quiet page".data
    extract_text := fun _ _ => Except.ok "hello".data
    solveFile := fun _ _ => Except.error "unused".data
    solveApi := fun _ _ => Except.error "unused".data
    solveData := fun _ _ => Except.error "unused".data
    askLLM := fun _ _ => Except.ok "12".data
    transport := fun _ _ _ _ => Wire.fail
    stepTime := fun _ => 0 }

/-- C7 counterexample: on a page with no submit URL the recorded step has
`correct = unknown` and the loop stops, as the claim says, but its error
detail is the literal `"No submit URL found"`, not `"no submit target"`. -/
theorem C7_counterexample :
    (solve_quiz envC7 "e".data "s".data 180 "http://quiz/1".data).results =
      [noSubmitRes "http://quiz/1".data (Answer.int 12)]
    ∧ (noSubmitRes "http://quiz/1".data (Answer.int 12)).error ≠
        some "no submit target".data
    ∧ (noSubmitRes "http://quiz/1".data (Answer.int 12)).error =
        some "No submit URL found".data
    ∧ (noSubmitRes "http://quiz/1".data (Answer.int 12)).correct = none := by
  refine ⟨by decide, by decide, by decide, by decide⟩

/-- C7 as amended: a step whose page yields no submit URL appends a
`StepResult` with `correct = unknown` (Python `None`) and error detail
`"No submit URL found"` to the history, and the loop stops without traversing
further pages. -/
theorem C7_no_submit_url (env : Env) (email secret : List Char)
    (mt k elapsed : Nat) (u html text : List Char) (a : Answer)
    (acc : List StepResult) (ht : ¬ mt < elapsed)
    (hnav : env.navigate k u = Except.ok html)
    (htext : env.extract_text k u = Except.ok text)
    (hsolve : solve_question env k (extract_question_info text html) =
      Except.ok a)
    (hsub : extract_submit_url html = none) :
    solveLoop env email secret mt k elapsed u acc =
      (acc ++ [noSubmitRes u a], elapsed + 1 + env.stepTime k) := by
  have hstep := solve_single_ok_noSubmit env email secret k u html text a
    hnav htext hsolve hsub
  have hnext : (solve_single_quiz env email secret k u).next_url = none := by
    rw [hstep]
    rfl
  rw [solveLoop_stop env email secret mt k elapsed u acc ht hnext, hstep]

/-- Witness for C7 (amended): the concrete submit-URL-free session. -/
theorem C7_witness :
    solveLoop envC7 "e".data "s".data 180 0 0 "http://quiz/1".data [] =
      ([] ++ [noSubmitRes "http://quiz/1".data (Answer.int 12)],
        0 + 1 + envC7.stepTime 0) :=
  C7_no_submit_url envC7 "e".data "s".data 180 0 0 "http://quiz/1".data
    "a quiet page".data "hello".data (Answer.int 12) [] (by decide)
    rfl rfl rfl rfl

/-- C8: any exception of a kind-specific answer path is caught at the
`_solve_question` boundary and the general fallback is run instead, so an
answer-production error surfaces only when the general path itself fails —
and then with the general path's own error. -/
theorem C8_answer_producer_fallback (env : Env) (k : Nat)
    (info : QuestionInfo) :
    (info.type ≠ QKind.general →
      ∀ e : Err, kindAttempt env k info = Except.error e →
        solve_question env k info = solve_general env k info.text)
    ∧ (∀ e : Err, solve_question env k info = Except.error e →
        solve_general env k info.text = Except.error e) := by
  constructor
  · intro _ e h
    unfold solve_question
    rw [h]
  · intro e h
    unfold solve_question at h
    cases ha : kindAttempt env k info with
    | ok a =>
      rw [ha] at h
      exact Except.noConfusion h
    | error e2 =>
      rw [ha] at h
      exact h

/-- A session whose file-download path raises and whose LLM is down. -/
def envC8 : Env :=
  { browserStart := Except.ok ()
    navigate := fun _ _ => Except.ok "x".data
    extract_text := fun _ _ => Except.ok "download the file".data
    solveFile := fun _ _ => Except.error "filefail".data
    solveApi := fun _ _ => Except.error "unused".data
    solveData := fun _ _ => Except.error "unused".data
    askLLM := fun _ _ => Except.error "llmdown".data
    transport := fun _ _ _ _ => Wire.fail
    stepTime := fun _ => 0 }

/-- Witness for C8: on a `file_download` question whose file path raises,
the result is the general path's; and when the overall production fails, the
error is the general path's LLM error. -/
theorem C8_witness :
    solve_question envC8 0
      (extract_question_info "download the file".data "x".data) =
      solve_general envC8 0
        (extract_question_info "download the file".data "x".data).text
    ∧ solve_general envC8 0
        (extract_question_info "download the file".data "x".data).text =
      Except.error "llmdown".data :=
  ⟨(C8_answer_producer_fallback envC8 0
      (extract_question_info "download the file".data "x".data)).1
      (by decide) "filefail".data rfl,
   (C8_answer_producer_fallback envC8 0
      (extract_question_info "download the file".data "x".data)).2
      "llmdown".data rfl⟩

/-- A session whose first submission's `url` points back at the same quiz
page, and whose second submission carries no `url`. -/
def envC9 : Env :=
  { browserStart := Except.ok ()
    navigate := fun _ _ => Except.ok "at http://h/submit go".data
    extract_text := fun _ _ => Except.ok "hi".data
    solveFile := fun _ _ => Except.error "unused".data
    solveApi := fun _ _ => Except.error "unused".data
    solveData := fun _ _ => Except.error "unused".data
    askLLM := fun _ _ => Except.ok "1".data
    transport := fun k _ _ _ =>
      if k = 0 then
        Wire.resp 200 (some ⟨some true, some "http://quiz/1".data, none⟩)
      else Wire.resp 200 (some ⟨some true, none, none⟩)
    stepTime := fun _ => 0 }

/-- C9 counterexample: nothing prevents the server-supplied `nextUrl` from
naming an already-visited page — a submission response whose `url` is the
current URL makes the loop render and solve that URL a second time, so the
session's history holds the same URL twice. -/
theorem C9_counterexample :
    ((solve_quiz envC9 "e".data "s".data 10 "http://quiz/1".data).results.map
        StepResult.url) =
      ["http://quiz/1".data, "http://quiz/1".data]
    ∧ ¬ ((solve_quiz envC9 "e".data "s".data 10
        "http://quiz/1".data).results.map StepResult.url).Nodup := by
  refine ⟨by decide, by decide⟩

/-- C9 as amended: the loop itself never re-visits a page — after a step it
either stops (no `nextUrl` in the step's result) or moves to exactly the
`nextUrl` the submission response supplied; a URL is visited more than once
only when some response's `nextUrl` names it again. -/
theorem C9_traversal (env : Env) (email secret : List Char)
    (mt k elapsed : Nat) (u : List Char) (acc : List StepResult)
    (ht : ¬ mt < elapsed) :
    ((solve_single_quiz env email secret k u).next_url = none →
      solveLoop env email secret mt k elapsed u acc =
        (acc ++ [solve_single_quiz env email secret k u],
          elapsed + 1 + env.stepTime k))
    ∧ (∀ v, (solve_single_quiz env email secret k u).next_url = some v →
        solveLoop env email secret mt k elapsed u acc =
          solveLoop env email secret mt (k + 1)
            (elapsed + 1 + env.stepTime k) v
            (acc ++ [solve_single_quiz env email secret k u])) :=
  ⟨fun hn => solveLoop_stop env email secret mt k elapsed u acc ht hn,
   fun v hn => solveLoop_cont env email secret mt k elapsed u v acc ht hn⟩

/-- Witness for C9 (amended): at visit 1 of the revisit session the step's
result has no `nextUrl`, and the loop stops with exactly that step
appended. -/
theorem C9_witness :
    solveLoop envC9 "e".data "s".data 10 1 1 "http://quiz/1".data [] =
      ([] ++ [solve_single_quiz envC9 "e".data "s".data 1
        "http://quiz/1".data], 1 + 1 + envC9.stepTime 1) :=
  (C9_traversal envC9 "e".data "s".data 10 1 1 "http://quiz/1".data []
    (by decide)).1 (by decide)

/-- The submission result of an HTTP 200 whose parsed body misses both the
`correct` and the `url` field. -/
lemma submit_missing_fields (post : List Char → Payload → Nat → Wire)
    (su qu email secret : List Char) (a : Answer) (body : SubmitBody)
    (h0 : post su { email := email, secret := secret, url := qu, answer := a }
      0 = Wire.resp 200 (some body))
    (hcor : body.correct = none) (hurl : body.url = none) :
    submit_answer post su qu email secret a 3 =
      { url := qu, answer := some a, correct := some false, next_url := none,
        reason := body.reason, attempt := some 1, error := none } := by
  have hres := submitFrom_ok (post su) qu
    { email := email, secret := secret, url := qu, answer := a } a body 3 0 0
    (le_refl 0) (by omega) h0 (fun i _ h2 => absurd h2 (Nat.not_lt_zero i))
  unfold submit_answer
  rw [hres, hcor, hurl]
  rfl

/-- C10: an HTTP 200 submission response whose JSON body omits `correct`
yields a result with `correct = false` (neither an error nor unknown), and
one omitting `url` yields a result with no `nextUrl`, so the orchestration
loop records the step and terminates cleanly. -/
theorem C10_malformed_200_body :
    (∀ (post : List Char → Payload → Nat → Wire)
        (su qu email secret : List Char) (a : Answer) (body : SubmitBody),
        post su { email := email, secret := secret, url := qu, answer := a }
          0 = Wire.resp 200 (some body) →
        body.correct = none → body.url = none →
        submit_answer post su qu email secret a 3 =
          { url := qu, answer := some a, correct := some false,
            next_url := none, reason := body.reason, attempt := some 1,
            error := none })
    ∧ (∀ (env : Env) (email secret : List Char) (mt k elapsed : Nat)
        (u html text su : List Char) (a : Answer) (body : SubmitBody)
        (acc : List StepResult), ¬ mt < elapsed →
        env.navigate k u = Except.ok html →
        env.extract_text k u = Except.ok text →
        solve_question env k (extract_question_info text html) =
          Except.ok a →
        extract_submit_url html = some su →
        env.transport k su
          { email := email, secret := secret, url := u, answer := a } 0 =
          Wire.resp 200 (some body) →
        body.correct = none → body.url = none →
        solveLoop env email secret mt k elapsed u acc =
          (acc ++ [(⟨u, some a, some false, none, body.reason, some 1,
            none⟩ : StepResult)], elapsed + 1 + env.stepTime k)) := by
  constructor
  · exact fun post su qu email secret a body h0 hcor hurl =>
      submit_missing_fields post su qu email secret a body h0 hcor hurl
  · intro env email secret mt k elapsed u html text su a body acc ht hnav
      htext hsolve hsub htr hcor hurl
    have hstep := solve_single_ok_submit env email secret k u html text a su
      hnav htext hsolve hsub
    have hsubres := submit_missing_fields (env.transport k) su u email secret
      a body htr hcor hurl
    rw [hsubres] at hstep
    have hnext : (solve_single_quiz env email secret k u).next_url = none := by
      rw [hstep]
    rw [solveLoop_stop env email secret mt k elapsed u acc ht hnext, hstep]

/-- A session whose submissions answer HTTP 200 with a JSON body holding only
a `reason`. -/
def envC10 : Env :=
  { browserStart := Except.ok ()
    navigate := fun _ _ => Except.ok "post to http://h/submit please".data
    extract_text := fun _ _ => Except.ok "hey".data
    solveFile := fun _ _ => Except.error "unused".data
    solveApi := fun _ _ => Except.error "unused".data
    solveData := fun _ _ => Except.error "unused".data
    askLLM := fun _ _ => Except.ok "7".data
    transport := fun _ _ _ _ =>
      Wire.resp 200 (some ⟨none, none, some "why".data⟩)
    stepTime := fun _ => 0 }

/-- Witness for C10: the concrete missing-fields session records one step
with `correct = false` and no `nextUrl`, and stops. -/
theorem C10_witness :
    solveLoop envC10 "e".data "s".data 180 0 0 "http://quiz/1".data [] =
      ([] ++ [(⟨"http://quiz/1".data, some (Answer.int 7), some false, none,
        some "why".data, some 1, none⟩ : StepResult)],
        0 + 1 + envC10.stepTime 0) :=
  C10_malformed_200_body.2 envC10 "e".data "s".data 180 0 0
    "http://quiz/1".data "post to http://h/submit please".data "hey".data
    "http://h/submit".data (Answer.int 7) ⟨none, none, some "why".data⟩ []
    (by decide) rfl rfl rfl rfl rfl rfl rfl

end QS
